import Mathlib

/-!
Verification of the buttplug runtime coordination spine against its
natural-language specification.  The definitions below are a shallow
embedding of the Rust source files:

  * `src/buttplug/src/server/device_manager.rs`
  * `src/buttplug/src/client/internal.rs`
  * `src/buttplug/src/server/device/hardware/communication/btleplug/btleplug_hardware.rs`

Machine integers (`u32`) are modelled as `Nat` with explicit reduction
modulo `2^32` where overflow matters.  Hash maps (`HashMap`, `evmap`) are
modelled as association lists with unique keys; the event loops are
modelled as recursive functions over the serialized list of events their
`select!` sites deliver.  Code paths that `panic!` or `unwrap()` a `None`
are modelled with `Option` results (`none` = panic).
-/

set_option autoImplicit false

/-- `2^32`, the modulus of the `u32` device-index counter. -/
def u32Mod : Nat := 4294967296

/-! ## Association lists, modelling `HashMap` / `evmap` keyed access -/

/-- Lookup, modelling `HashMap::get` / `evmap` `get_one`. -/
def alLookup {κ α : Type} [DecidableEq κ] (k : κ) : List (κ × α) → Option α
  | [] => none
  | p :: rest => if k = p.1 then some p.2 else alLookup k rest

/-- Insert-or-overwrite, modelling `HashMap::insert` / `evmap` `insert`+`refresh`. -/
def alInsert {κ α : Type} [DecidableEq κ] (k : κ) (v : α) : List (κ × α) → List (κ × α)
  | [] => [(k, v)]
  | p :: rest => if k = p.1 then (k, v) :: rest else p :: alInsert k v rest

/-- Key removal, modelling `HashMap::remove` / `evmap` `empty`. -/
def alRemove {κ α : Type} [DecidableEq κ] (k : κ) : List (κ × α) → List (κ × α)
  | [] => []
  | p :: rest => if k = p.1 then rest else p :: alRemove k rest

theorem alLookup_alInsert_self {κ α : Type} [DecidableEq κ] (k : κ) (v : α)
    (l : List (κ × α)) : alLookup k (alInsert k v l) = some v := by
  induction l with
  | nil => simp [alInsert, alLookup]
  | cons p rest ih =>
    by_cases h : k = p.1
    · simp [alInsert, h, alLookup]
    · simp [alInsert, h, alLookup, ih]

theorem alLookup_alInsert_of_ne {κ α : Type} [DecidableEq κ] (k k2 : κ) (v : α)
    (l : List (κ × α)) (h : k ≠ k2) :
    alLookup k (alInsert k2 v l) = alLookup k l := by
  induction l with
  | nil => simp [alInsert, alLookup, h]
  | cons p rest ih =>
    by_cases h2 : k2 = p.1
    · subst h2
      simp [alInsert, alLookup, h, ih]
    · by_cases h3 : k = p.1
      · simp [alInsert, alLookup, h2, h3]
      · simp [alInsert, alLookup, h2, h3, ih]

theorem alRemove_sublist {κ α : Type} [DecidableEq κ] (k : κ) (l : List (κ × α)) :
    List.Sublist (alRemove k l) l := by
  induction l with
  | nil => simp [alRemove]
  | cons p rest ih =>
    by_cases h : k = p.1
    · simp only [alRemove, if_pos h]
      exact List.Sublist.cons p (List.Sublist.refl rest)
    · simpa [alRemove, h] using List.Sublist.cons₂ p ih

theorem alLookup_eq_none_of_not_mem_keys {κ α : Type} [DecidableEq κ] (k : κ)
    (l : List (κ × α)) (h : k ∉ l.map Prod.fst) : alLookup k l = none := by
  induction l with
  | nil => simp [alLookup]
  | cons p rest ih =>
    simp only [List.map_cons, List.mem_cons] at h
    push_neg at h
    simp [alLookup, h.1, ih h.2]

theorem alLookup_alRemove_self {κ α : Type} [DecidableEq κ] (k : κ)
    (l : List (κ × α)) (h : (l.map Prod.fst).Nodup) :
    alLookup k (alRemove k l) = none := by
  induction l with
  | nil => simp [alRemove, alLookup]
  | cons p rest ih =>
    simp only [List.map_cons, List.nodup_cons] at h
    by_cases hk : k = p.1
    · subst hk
      simpa [alRemove] using alLookup_eq_none_of_not_mem_keys _ _ h.1
    · simp [alRemove, hk, alLookup, ih h.2]

theorem mem_keys_alInsert {κ α : Type} [DecidableEq κ] (k a : κ) (v : α)
    (l : List (κ × α)) :
    a ∈ (alInsert k v l).map Prod.fst ↔ a = k ∨ a ∈ l.map Prod.fst := by
  induction l with
  | nil => simp [alInsert]
  | cons q rs ihq =>
    by_cases hq : k = q.1
    · subst hq
      simp only [alInsert, if_true, eq_self_iff_true, List.map_cons, List.mem_cons]
      tauto
    · simp only [alInsert, if_neg hq, List.map_cons, List.mem_cons, ihq]
      tauto

theorem alInsert_keys_nodup {κ α : Type} [DecidableEq κ] (k : κ) (v : α)
    (l : List (κ × α)) (h : (l.map Prod.fst).Nodup) :
    ((alInsert k v l).map Prod.fst).Nodup := by
  induction l with
  | nil => simp [alInsert]
  | cons p rest ih =>
    simp only [List.map_cons, List.nodup_cons] at h
    by_cases hk : k = p.1
    · subst hk
      simp only [alInsert, if_true, eq_self_iff_true, List.map_cons, List.nodup_cons]
      exact h
    · simp only [alInsert, if_neg hk, List.map_cons, List.nodup_cons]
      constructor
      · rw [mem_keys_alInsert]
        push_neg
        exact ⟨fun hpk => hk hpk.symm, h.1⟩
      · exact ih h.2

theorem alRemove_keys_nodup {κ α : Type} [DecidableEq κ] (k : κ)
    (l : List (κ × α)) (h : (l.map Prod.fst).Nodup) :
    ((alRemove k l).map Prod.fst).Nodup :=
  ((alRemove_sublist k l).map Prod.fst).nodup h

/-! ## Core message and error types (`core::errors`, `core::messages`)

These types live outside the provided source slice; only the shape the
device manager and client loop depend on is modelled: message-id and
device-index accessors and the error variants the code constructs. -/

/-- Immutable device snapshot (spec §3, `core::messages::DeviceMessageInfo`). -/
structure DeviceMessageInfo where
  device_index : Nat
  device_name : String
  device_messages : String
  deriving DecidableEq, Repr

/-- Manager-level error union (`core::errors`): the variants constructed by
`device_manager.rs`. -/
inductive ButtplugError where
  | deviceError (msg : String)
  | unknownError (msg : String)
  | messageError (msg : String)
  deriving DecidableEq, Repr

/-- Server → client messages produced by the device manager. -/
inductive ServerMessage where
  | ok (id : Nat)
  | deviceList (id : Nat) (devices : List DeviceMessageInfo)
  | deviceAdded (index : Nat) (name : String) (attrs : String)
  | deviceRemoved (index : Nat)
  | scanningFinished
  deriving DecidableEq, Repr

/-- Device-addressed command messages (`ButtplugDeviceCommandMessageUnion`):
each carries a device index (`get_device_index`). -/
inductive DeviceCommandMessage where
  | stopDeviceCmd (deviceIndex : Nat)
  | vibrateCmd (deviceIndex : Nat)
  deriving DecidableEq, Repr

/-- `ButtplugDeviceMessage::get_device_index`. -/
def DeviceCommandMessage.getDeviceIndex : DeviceCommandMessage → Nat
  | .stopDeviceCmd i => i
  | .vibrateCmd i => i

/-- Device-manager-addressed messages (`ButtplugDeviceManagerMessageUnion`),
each carrying its message id (`get_id`). -/
inductive ManagerCommandMessage where
  | requestDeviceList (id : Nat)
  | stopAllDevices (id : Nat)
  | startScanning (id : Nat)
  | stopScanning (id : Nat)
  deriving DecidableEq, Repr

/-- Incoming client messages after the `try_from` routing in
`DeviceManager::parse_message`: a device command, a manager command, or
anything else (which neither conversion accepts). -/
inductive ButtplugInMessage where
  | deviceCmd (m : DeviceCommandMessage)
  | managerCmd (m : ManagerCommandMessage)
  | other
  deriving DecidableEq, Repr

/-! ## Server-side device and device manager (`server/device_manager.rs`) -/

/-- A connected device (`device::ButtplugDevice`): name, message attributes
and its protocol-translation entry point `parse_message`. -/
structure ButtplugDevice where
  name : String
  message_attributes : String
  parse : DeviceCommandMessage → Except ButtplugError ServerMessage

/-- A registered communication manager, identified by a token; the device
manager only fans `start_scanning` / `stop_scanning` out to each one. -/
structure DeviceCommunicationManager where
  mid : Nat
  deriving DecidableEq, Repr

/-- `DeviceManager`: registered communication managers plus the read handle
on the device registry (`evmap` keyed by device index). -/
structure DeviceManager where
  comm_managers : List DeviceCommunicationManager
  devices : List (Nat × ButtplugDevice)

/-- `DeviceManager::parse_device_message` (device_manager.rs:248-259): look
the index up in the registry; on a hit hand the message to the device, on a
miss produce a `ButtplugDeviceError` with the exact formatted text.  The
method takes `&self`, so the registry is returned unchanged. -/
def DeviceManager.parseDeviceMessage (dm : DeviceManager)
    (device_msg : DeviceCommandMessage) :
    DeviceManager × Except ButtplugError ServerMessage :=
  match alLookup device_msg.getDeviceIndex dm.devices with
  | some device => (dm, device.parse device_msg)
  | none =>
    (dm, .error (.deviceError
      ("No device with index " ++ toString device_msg.getDeviceIndex ++ " available")))

/-- `DeviceManager::start_scanning` (device_manager.rs:200-213): error when
no communication managers are registered, otherwise fan out to all of them
(result: the list of managers invoked) and answer `Ok` with the request id. -/
def DeviceManager.startScanning (dm : DeviceManager) (msg_id : Nat) :
    List Nat × Except ButtplugError ServerMessage :=
  if dm.comm_managers.isEmpty then
    ([], .error (.unknownError
      "Cannot start scanning. Server has no device communication managers to scan with."))
  else
    (dm.comm_managers.map (fun m => m.mid), .ok (.ok msg_id))

/-- `DeviceManager::stop_scanning` (device_manager.rs:215-228); the error
string is the same as in `start_scanning` in the source. -/
def DeviceManager.stopScanning (dm : DeviceManager) (msg_id : Nat) :
    List Nat × Except ButtplugError ServerMessage :=
  if dm.comm_managers.isEmpty then
    ([], .error (.unknownError
      "Cannot start scanning. Server has no device communication managers to scan with."))
  else
    (dm.comm_managers.map (fun m => m.mid), .ok (.ok msg_id))

/-- `DeviceManager::stop_all_devices` (device_manager.rs:230-246): send
`StopDeviceCmd::new(1)` to every registry device, record each device's
result, and answer `Ok(msg_id)` no matter how the individual futures
resolved (the source discards `join_all`'s results). -/
def DeviceManager.stopAllDevices (dm : DeviceManager) (msg_id : Nat) :
    List (Nat × DeviceCommandMessage × Except ButtplugError ServerMessage)
      × Except ButtplugError ServerMessage :=
  (dm.devices.map (fun p =>
      (p.1, DeviceCommandMessage.stopDeviceCmd 1,
        p.2.parse (.stopDeviceCmd 1))),
   .ok (.ok msg_id))

/-- `DeviceManager::parse_device_manager_message` (device_manager.rs:261-295).
The scanning variants' manager fan-out lists are dropped here, as the source
drops them. -/
def DeviceManager.parseDeviceManagerMessage (dm : DeviceManager)
    (manager_msg : ManagerCommandMessage) : Except ButtplugError ServerMessage :=
  match manager_msg with
  | .requestDeviceList id =>
    .ok (.deviceList id (dm.devices.map (fun p =>
      { device_index := p.1
        device_name := p.2.name
        device_messages := p.2.message_attributes })))
  | .stopAllDevices id => (dm.stopAllDevices id).2
  | .startScanning id => (dm.startScanning id).2
  | .stopScanning id => (dm.stopScanning id).2

/-- `DeviceManager::parse_message` (device_manager.rs:297-312): route device
commands to `parse_device_message`, manager commands to
`parse_device_manager_message`, and reject everything else. -/
def DeviceManager.parseMessage (dm : DeviceManager) (msg : ButtplugInMessage) :
    DeviceManager × Except ButtplugError ServerMessage :=
  match msg with
  | .deviceCmd m => dm.parseDeviceMessage m
  | .managerCmd m => (dm, dm.parseDeviceManagerMessage m)
  | .other =>
    (dm, .error (.messageError "Message type not handled by Device Manager"))

/-! ## Device manager event loop (`wait_for_manager_events`, device_manager.rs:43-173)

The loop `select!`s between the communication-event channel, the
per-device event channel and the ping channel; we model one execution as a
recursion over the serialized list of events those channels deliver.
Identification of a found device runs in a spawned task whose effects
(`DeviceAdded` outward, `DeviceConnected` reinjected into the
communication channel) arrive asynchronously; the reinjected
`DeviceConnected` therefore appears as a later element of the event list.
A `none` on either channel models channel closure. -/

/-- Outcome of `ButtplugDevice::try_create_device` for a found creator:
a protocol matched, no protocol matched, or the connection errored. -/
inductive DeviceCreatorOutcome where
  | matched (device : ButtplugDevice)
  | unmatched
  | errored (msg : String)

/-- `comm_managers::DeviceCommunicationEvent`. -/
inductive DeviceCommunicationEvent where
  | deviceFound (creator : DeviceCreatorOutcome)
  | deviceConnected (index : Nat) (device : ButtplugDevice)
  | scanningFinished

/-- `device::ButtplugDeviceEvent` as seen by the manager loop: `Removed`
evicts the device, anything else is only logged. -/
inductive ButtplugDeviceEvent where
  | removed
  | notification (data : List Nat)

/-- The three arms of the loop's `select!` (enum `DeviceEvent` in the
source); `none` models closure of the corresponding channel.  -/
inductive ManagerLoopEvent where
  | commEvent (e : Option DeviceCommunicationEvent)
  | devEvent (e : Option (Nat × ButtplugDeviceEvent))
  | pingTimeout

/-- Loop-owned state: the `AtomicU32` index counter and the write side of
the `evmap` device registry. -/
structure LoopState where
  counter : Nat
  registry : List (Nat × ButtplugDevice)

/-- One state transition of the loop (registry writes and the
fetch-and-increment of the `u32` index counter, which wraps at `2^32`). -/
def stepState (s : LoopState) (e : ManagerLoopEvent) : LoopState :=
  match e with
  | .commEvent (some (.deviceFound _)) =>
    { s with counter := (s.counter + 1) % u32Mod }
  | .commEvent (some (.deviceConnected i d)) =>
    { s with registry := alInsert i d s.registry }
  | .devEvent (some (i, .removed)) =>
    { s with registry := alRemove i s.registry }
  | _ => s

/-- State after processing a prefix of events (no break assumed). -/
def execState (s : LoopState) (l : List ManagerLoopEvent) : LoopState :=
  l.foldl stepState s

/-- Observable outcome of one run of the manager loop. -/
structure LoopOut where
  /-- Device indices allocated by `DeviceFound`, in order. -/
  allocated : List Nat
  /-- Server messages emitted outward by the loop body itself. -/
  emitted : List ServerMessage
  /-- On ping timeout: per device, its index, the message sent
  (`StopDeviceCmd::new(1)`) and the device's result. -/
  stops : List (Nat × DeviceCommandMessage × Except ButtplugError ServerMessage)
  /-- Loop state at exit. -/
  finalState : LoopState
  /-- Events still queued when the loop broke (never processed). -/
  leftover : List ManagerLoopEvent

/-- The manager event loop (device_manager.rs:60-171).  `DeviceFound`
allocates the current counter value and increments the counter — the
creator's identification outcome never affects allocation, since
identification runs off-loop.  `PingTimeout` sends `StopDeviceCmd::new(1)`
to every registry device, records (logs) each result, and breaks; channel
closure (`none`) breaks. -/
def runLoop (s : LoopState) : List ManagerLoopEvent → LoopOut
  | [] => ⟨[], [], [], s, []⟩
  | e :: rest =>
    match e with
    | .pingTimeout =>
      ⟨[], [],
        s.registry.map (fun p =>
          (p.1, DeviceCommandMessage.stopDeviceCmd 1,
            p.2.parse (.stopDeviceCmd 1))),
        s, rest⟩
    | .commEvent none => ⟨[], [], [], s, rest⟩
    | .devEvent none => ⟨[], [], [], s, rest⟩
    | .commEvent (some (.deviceFound c)) =>
      let out := runLoop (stepState s (.commEvent (some (.deviceFound c)))) rest
      { out with allocated := s.counter :: out.allocated }
    | .commEvent (some (.deviceConnected i d)) =>
      runLoop (stepState s (.commEvent (some (.deviceConnected i d)))) rest
    | .commEvent (some .scanningFinished) =>
      let out := runLoop s rest
      { out with emitted := ServerMessage.scanningFinished :: out.emitted }
    | .devEvent (some (i, .removed)) =>
      let out := runLoop (stepState s (.devEvent (some (i, .removed)))) rest
      { out with emitted := ServerMessage.deviceRemoved i :: out.emitted }
    | .devEvent (some (_, .notification _)) =>
      runLoop s rest

/-- Number of `DeviceFound` events in a list. -/
def countFound : List ManagerLoopEvent → Nat
  | [] => 0
  | .commEvent (some (.deviceFound _)) :: rest => countFound rest + 1
  | _ :: rest => countFound rest

/-- Events that do not break the loop: everything except ping timeout and
channel closure. -/
def breakFree : ManagerLoopEvent → Bool
  | .pingTimeout => false
  | .commEvent none => false
  | .devEvent none => false
  | _ => true

/-! ## Lemmas about index allocation (claim C2) -/

theorem counter_lt_stepState (s : LoopState) (e : ManagerLoopEvent)
    (h : s.counter < u32Mod) : (stepState s e).counter < u32Mod := by
  cases e with
  | pingTimeout => exact h
  | commEvent o =>
    cases o with
    | none => exact h
    | some ev =>
      cases ev with
      | deviceFound c => exact Nat.mod_lt _ (by simp [u32Mod])
      | deviceConnected i d => exact h
      | scanningFinished => exact h
  | devEvent o =>
    cases o with
    | none => exact h
    | some p =>
      obtain ⟨pi, pe⟩ := p
      cases pe with
      | removed => exact h
      | notification data => exact h

/-- The indices allocated by a run with counter `c < 2^32` are a prefix of
the wrapped arithmetic progression `c, c+1, c+2, …  (mod 2^32)`, one value
per processed `DeviceFound`, regardless of identification outcomes. -/
theorem runLoop_allocated_spec (events : List ManagerLoopEvent) :
    ∀ s : LoopState, s.counter < u32Mod →
    ∃ k, k ≤ countFound events ∧
      (runLoop s events).allocated =
        (List.range k).map (fun i => (s.counter + i) % u32Mod) := by
  induction events with
  | nil => intro s _; exact ⟨0, Nat.le_refl 0, rfl⟩
  | cons e rest ih =>
    intro s hc
    cases e with
    | pingTimeout => exact ⟨0, Nat.zero_le _, rfl⟩
    | commEvent o =>
      cases o with
      | none => exact ⟨0, Nat.zero_le _, rfl⟩
      | some ev =>
        cases ev with
        | deviceFound c =>
          have hs2 : (stepState s (.commEvent (some (.deviceFound c)))).counter < u32Mod :=
            counter_lt_stepState s _ hc
          obtain ⟨k, hk, hall⟩ := ih _ hs2
          refine ⟨k + 1, by simpa [countFound] using Nat.succ_le_succ hk, ?_⟩
          have hstep : (stepState s (.commEvent (some (.deviceFound c)))).counter
              = (s.counter + 1) % u32Mod := rfl
          have hfun : (fun i => ((s.counter + 1) % u32Mod + i) % u32Mod)
              = (fun i => (s.counter + (i + 1)) % u32Mod) := by
            funext i
            rw [Nat.mod_add_mod]
            ring_nf
          calc (runLoop s (.commEvent (some (.deviceFound c)) :: rest)).allocated
              = s.counter :: (runLoop (stepState s (.commEvent (some (.deviceFound c)))) rest).allocated := rfl
            _ = s.counter :: (List.range k).map (fun i => ((s.counter + 1) % u32Mod + i) % u32Mod) := by
                rw [hall, hstep]
            _ = s.counter :: (List.range k).map (fun i => (s.counter + (i + 1)) % u32Mod) := by
                rw [hfun]
            _ = (List.range (k + 1)).map (fun i => (s.counter + i) % u32Mod) := by
                rw [List.range_succ_eq_map, List.map_cons, List.map_map]
                simp only [Function.comp_def, Nat.succ_eq_add_one, Nat.add_zero,
                  Nat.mod_eq_of_lt hc]
        | deviceConnected i d =>
          obtain ⟨k, hk, hall⟩ := ih _ (counter_lt_stepState s (.commEvent (some (.deviceConnected i d))) hc)
          exact ⟨k, by simpa [countFound] using hk, hall⟩
        | scanningFinished =>
          obtain ⟨k, hk, hall⟩ := ih s hc
          exact ⟨k, by simpa [countFound] using hk, hall⟩
    | devEvent o =>
      cases o with
      | none => exact ⟨0, Nat.zero_le _, rfl⟩
      | some p =>
        obtain ⟨pi, pe⟩ := p
        cases pe with
        | removed =>
          obtain ⟨k, hk, hall⟩ := ih _ (counter_lt_stepState s (.devEvent (some (pi, .removed))) hc)
          exact ⟨k, by simpa [countFound] using hk, hall⟩
        | notification data =>
          obtain ⟨k, hk, hall⟩ := ih s hc
          exact ⟨k, by simpa [countFound] using hk, hall⟩

/-- On a pure stream of `DeviceFound` events nothing breaks the loop, so
exactly one index is allocated per event: the wrapped progression
`c, c+1, … (mod 2^32)`. -/
theorem runLoop_replicate_found (c0 : DeviceCreatorOutcome) (n : Nat) :
    ∀ s : LoopState, s.counter < u32Mod →
    (runLoop s (List.replicate n (.commEvent (some (.deviceFound c0))))).allocated =
      (List.range n).map (fun i => (s.counter + i) % u32Mod) := by
  induction n with
  | zero => intro s _; rfl
  | succ n ih =>
    intro s hc
    rw [List.replicate_succ]
    have hs2 : (stepState s (.commEvent (some (.deviceFound c0)))).counter < u32Mod :=
      counter_lt_stepState s _ hc
    have hstep : (stepState s (.commEvent (some (.deviceFound c0)))).counter
        = (s.counter + 1) % u32Mod := rfl
    have hfun : (fun i => ((s.counter + 1) % u32Mod + i) % u32Mod)
        = (fun i => (s.counter + (i + 1)) % u32Mod) := by
      funext i
      rw [Nat.mod_add_mod]
      ring_nf
    calc (runLoop s (.commEvent (some (.deviceFound c0))
            :: List.replicate n (.commEvent (some (.deviceFound c0))))).allocated
        = s.counter :: (runLoop (stepState s (.commEvent (some (.deviceFound c0))))
            (List.replicate n (.commEvent (some (.deviceFound c0))))).allocated := rfl
      _ = s.counter :: (List.range n).map (fun i => ((s.counter + 1) % u32Mod + i) % u32Mod) := by
          rw [ih _ hs2, hstep]
      _ = s.counter :: (List.range n).map (fun i => (s.counter + (i + 1)) % u32Mod) := by
          rw [hfun]
      _ = (List.range (n + 1)).map (fun i => (s.counter + i) % u32Mod) := by
          rw [List.range_succ_eq_map, List.map_cons, List.map_map]
          simp only [Function.comp_def, Nat.succ_eq_add_one, Nat.add_zero,
            Nat.mod_eq_of_lt hc]

/-! ## Lemmas about the ping-timeout branch (claim C3) -/

/-- Registry key uniqueness is preserved by every loop transition. -/
theorem registry_keys_nodup_stepState (s : LoopState) (e : ManagerLoopEvent)
    (h : (s.registry.map Prod.fst).Nodup) :
    ((stepState s e).registry.map Prod.fst).Nodup := by
  cases e with
  | pingTimeout => exact h
  | commEvent o =>
    cases o with
    | none => exact h
    | some ev =>
      cases ev with
      | deviceFound c => exact h
      | deviceConnected i d => exact alInsert_keys_nodup i d s.registry h
      | scanningFinished => exact h
  | devEvent o =>
    cases o with
    | none => exact h
    | some p =>
      obtain ⟨pi, pe⟩ := p
      cases pe with
      | removed => exact alRemove_keys_nodup pi s.registry h
      | notification data => exact h

/-- Registry key uniqueness is preserved across any break-free prefix. -/
theorem execState_keys_nodup (l : List ManagerLoopEvent) :
    ∀ s : LoopState, (s.registry.map Prod.fst).Nodup →
    ((execState s l).registry.map Prod.fst).Nodup := by
  induction l with
  | nil => intro s h; exact h
  | cons e rest ih =>
    intro s h
    exact ih (stepState s e) (registry_keys_nodup_stepState s e h)

/-- Processing a break-free prefix and then `PingTimeout`: the stop batch
covers exactly the registry at the moment of the timeout (one
`StopDeviceCmd::new(1)` per device), and the events queued behind the
timeout are never processed. -/
theorem runLoop_ping_timeout (pre : List ManagerLoopEvent) :
    ∀ (s : LoopState) (post : List ManagerLoopEvent),
    (∀ e ∈ pre, breakFree e = true) →
    (runLoop s (pre ++ ManagerLoopEvent.pingTimeout :: post)).stops
        = (execState s pre).registry.map (fun p =>
            (p.1, DeviceCommandMessage.stopDeviceCmd 1, p.2.parse (.stopDeviceCmd 1))) ∧
    (runLoop s (pre ++ ManagerLoopEvent.pingTimeout :: post)).leftover = post := by
  induction pre with
  | nil =>
    intro s post _
    exact ⟨rfl, rfl⟩
  | cons e pre ih =>
    intro s post h
    have he : breakFree e = true := h e (List.mem_cons_self e pre)
    have hrest : ∀ e2 ∈ pre, breakFree e2 = true :=
      fun e2 hm => h e2 (List.mem_cons_of_mem e hm)
    cases e with
    | pingTimeout => simp [breakFree] at he
    | commEvent o =>
      cases o with
      | none => simp [breakFree] at he
      | some ev =>
        cases ev with
        | deviceFound c =>
          simpa [List.cons_append, runLoop, execState, List.foldl_cons]
            using ih (stepState s (.commEvent (some (.deviceFound c)))) post hrest
        | deviceConnected i d =>
          simpa [List.cons_append, runLoop, execState, List.foldl_cons]
            using ih (stepState s (.commEvent (some (.deviceConnected i d)))) post hrest
        | scanningFinished =>
          simpa [List.cons_append, runLoop, execState, List.foldl_cons, stepState]
            using ih s post hrest
    | devEvent o =>
      cases o with
      | none => simp [breakFree] at he
      | some p =>
        obtain ⟨pi, pe⟩ := p
        cases pe with
        | removed =>
          simpa [List.cons_append, runLoop, execState, List.foldl_cons]
            using ih (stepState s (.devEvent (some (pi, .removed)))) post hrest
        | notification data =>
          simpa [List.cons_append, runLoop, execState, List.foldl_cons, stepState]
            using ih s post hrest

/-! ## Client event loop (`client/internal.rs`)

The loop's roster (`HashMap<u32, DeviceMessageInfo>`) and the per-index
event-sender lists (`HashMap<u32, Vec<Sender<…>>>`) are modelled as
association lists; event-channel senders are identified by the order of
their creation (`nextChan` plays the role of allocating a fresh channel).
`parse_connector_message` returns `Option` because its `DeviceRemoved` arm
`unwrap`s the roster entry and its catch-all arm is `panic!`: `none`
models the panic. -/

/-- A `ButtplugClientDevice` handle: the device info it was built from plus
the identity of the fresh event channel bound to it. -/
structure ButtplugClientDevice where
  info : DeviceMessageInfo
  chan : Nat
  deriving DecidableEq, Repr

/-- Events the loop sends to the owning `ButtplugClient`
(`ButtplugClientEvent`). -/
inductive ButtplugClientEvent where
  | deviceAdded (dev : ButtplugClientDevice)
  | deviceRemoved (info : DeviceMessageInfo)
  deriving DecidableEq, Repr

/-- The `DeviceMessageInfo` of a `DeviceAdded` client event, `none` for
any other event. -/
def ButtplugClientEvent.addedInfo : ButtplugClientEvent → Option DeviceMessageInfo
  | .deviceAdded dev => some dev.info
  | _ => none

/-- Server → client messages arriving through the connector
(`ButtplugClientOutMessage`); only the variants the loop inspects are
distinguished, the rest fall into the `panic!` catch-all. -/
inductive ButtplugClientOutMessage where
  | deviceAdded (info : DeviceMessageInfo)
  | deviceList (devices : List DeviceMessageInfo)
  | deviceRemoved (device_index : Nat)
  | ok (id : Nat)
  | scanningFinished
  deriving DecidableEq, Repr

/-- Loop-owned client state: the device roster, the per-index event-sender
lists and the next fresh channel id. -/
structure ClientState where
  devices : List (Nat × DeviceMessageInfo)
  device_event_senders : List (Nat × List Nat)
  nextChan : Nat
  deriving DecidableEq, Repr

/-- `HashMap::entry(..).or_insert_with(|| vec![]).push(sender)`: append a
sender to the (possibly newly created) vector for an index. -/
def sendersPush (k chan : Nat) : List (Nat × List Nat) → List (Nat × List Nat)
  | [] => [(k, [chan])]
  | p :: rest =>
    if k = p.1 then (p.1, p.2 ++ [chan]) :: rest else p :: sendersPush k chan rest

/-- `ButtplugClientEventLoop::create_client_device` (internal.rs:130-142):
allocate a fresh event channel, push its sender onto the vector for the
device index, and build the handle.  The roster is not touched here. -/
def createClientDevice (s : ClientState) (info : DeviceMessageInfo) :
    ClientState × ButtplugClientDevice :=
  ({ devices := s.devices
     device_event_senders := sendersPush info.device_index s.nextChan s.device_event_senders
     nextChan := s.nextChan + 1 },
   { info := info, chan := s.nextChan })

/-- The body both `DeviceList` handlers share (internal.rs:162-171 and
223-234, textually identical loops): for each entry, create a handle,
insert the entry into the roster under its index, and emit one
`DeviceAdded` outward. -/
def handleDeviceListEntries (s : ClientState) :
    List DeviceMessageInfo → ClientState × List ButtplugClientEvent
  | [] => (s, [])
  | d :: rest =>
    let r1 := createClientDevice s d
    let s2 := { r1.1 with devices := alInsert d.device_index d r1.1.devices }
    let r2 := handleDeviceListEntries s2 rest
    (r2.1, ButtplugClientEvent.deviceAdded r1.2 :: r2.2)

/-- `ButtplugClientEventLoop::parse_connector_message` (internal.rs:150-182).
`none` models a panic: the `DeviceRemoved` arm `unwrap`s the removed roster
entry, and every message the match does not know is `panic!`. -/
def parseConnectorMessage (s : ClientState) (msg : ButtplugClientOutMessage) :
    Option (ClientState × List ButtplugClientEvent) :=
  match msg with
  | .deviceAdded info =>
    let r1 := createClientDevice s info
    some ({ r1.1 with devices := alInsert info.device_index info r1.1.devices },
      [ButtplugClientEvent.deviceAdded r1.2])
  | .deviceList devices =>
    some (handleDeviceListEntries s devices)
  | .deviceRemoved idx =>
    match alLookup idx s.devices with
    | none => none
    | some info =>
      some ({ devices := alRemove idx s.devices
              device_event_senders := alRemove idx s.device_event_senders
              nextChan := s.nextChan },
        [ButtplugClientEvent.deviceRemoved info])
  | .ok _ => none
  | .scanningFinished => none

/-- Client → loop messages (`ButtplugClientMessage` in internal.rs); only
`HandleDeviceList` changes loop state without connector I/O, so it is the
variant modelled here. -/
inductive ClientMessage where
  | handleDeviceList (devices : List DeviceMessageInfo)

/-- `ButtplugClientEventLoop::parse_client_message`, `HandleDeviceList` arm
(internal.rs:223-234): identical per-entry handling, and the loop keeps
running (returns `true`). -/
def parseClientMessage (s : ClientState) (msg : ClientMessage) :
    ClientState × List ButtplugClientEvent × Bool :=
  match msg with
  | .handleDeviceList devices =>
    let r := handleDeviceListEntries s devices
    (r.1, r.2, true)

/-! ## BLE hardware driver (`btleplug_hardware.rs`)

`BtlePlugHardware` holds the endpoint → characteristic map built at
specialization time; each operation first resolves the endpoint and only
then touches the peripheral.  The peripheral is modelled as response
functions, and every operation also returns the list of I/O actions it
performed on the peripheral, so "no I/O on an unbound endpoint" is a
statement about that list being empty. -/

/-- `core::messages::Endpoint` (closed enumeration of logical roles). -/
inductive Endpoint where
  | tx
  | rx
  | cmd
  | firmware
  | generic (n : Nat)
  deriving DecidableEq, Repr

/-- A resolved GATT characteristic (`btleplug::api::Characteristic`),
identified by its UUID. -/
structure Characteristic where
  uuid : Nat
  deriving DecidableEq, Repr

/-- `btleplug::api::WriteType`. -/
inductive WriteType where
  | withResponse
  | withoutResponse
  deriving DecidableEq, Repr

/-- One I/O operation performed on the peripheral. -/
inductive BleAction where
  | write (chr : Characteristic) (data : List Nat) (writeType : WriteType)
  | read (chr : Characteristic)
  | subscribe (chr : Characteristic)
  | unsubscribe (chr : Characteristic)
  deriving DecidableEq, Repr

/-- `HardwareSpecificError` (the `BtleplugError` wrapper). -/
inductive HardwareSpecificError where
  | btleplugError (msg : String)
  deriving DecidableEq, Repr

/-- `core::errors::ButtplugDeviceError`, the variants this driver
constructs. -/
inductive ButtplugDeviceError where
  | invalidEndpoint (ep : Endpoint)
  | deviceSpecificError (e : HardwareSpecificError)
  | deviceConnectionError (msg : String)
  deriving DecidableEq, Repr

/-- `RawReading { device_index, endpoint, data }`; the driver always fills
`device_index = 0`. -/
structure RawReading where
  device_index : Nat
  endpoint : Endpoint
  data : List Nat
  deriving DecidableEq, Repr

/-- `HardwareWriteCmd`. -/
structure HardwareWriteCmd where
  endpoint : Endpoint
  data : List Nat
  write_with_response : Bool
  deriving DecidableEq, Repr

/-- `HardwareReadCmd`. -/
structure HardwareReadCmd where
  endpoint : Endpoint
  length : Nat
  timeout_ms : Nat
  deriving DecidableEq, Repr

/-- `HardwareSubscribeCmd`. -/
structure HardwareSubscribeCmd where
  endpoint : Endpoint
  deriving DecidableEq, Repr

/-- `HardwareUnsubscribeCmd`. -/
structure HardwareUnsubscribeCmd where
  endpoint : Endpoint
  deriving DecidableEq, Repr

/-- The peripheral (`btleplug::api::Peripheral`), modelled by the results
it returns for each operation (`.error` = transport error string). -/
structure BlePeripheral where
  writeResult : Characteristic → List Nat → WriteType → Except String Unit
  readResult : Characteristic → Except String (List Nat)
  subscribeResult : Characteristic → Except String Unit
  unsubscribeResult : Characteristic → Except String Unit

/-- `BtlePlugHardware`: peripheral plus the endpoint map bound at
specialization time. -/
structure BtlePlugHardware where
  device : BlePeripheral
  endpoints : List (Endpoint × Characteristic)

/-- `BtlePlugHardware::write_value` (btleplug_hardware.rs:320-350):
endpoint miss returns `InvalidEndpoint` before any peripheral I/O; a hit
writes the characteristic with the requested write type. -/
def BtlePlugHardware.writeValue (hw : BtlePlugHardware) (msg : HardwareWriteCmd) :
    List BleAction × Except ButtplugDeviceError Unit :=
  match alLookup msg.endpoint hw.endpoints with
  | none => ([], .error (.invalidEndpoint msg.endpoint))
  | some chr =>
    let wt := if msg.write_with_response then WriteType.withResponse
              else WriteType.withoutResponse
    ([.write chr msg.data wt],
     match hw.device.writeResult chr msg.data wt with
     | .ok _ => .ok ()
     | .error err => .error (.deviceSpecificError (.btleplugError err)))

/-- `BtlePlugHardware::read_value` (btleplug_hardware.rs:352-382). -/
def BtlePlugHardware.readValue (hw : BtlePlugHardware) (msg : HardwareReadCmd) :
    List BleAction × Except ButtplugDeviceError RawReading :=
  match alLookup msg.endpoint hw.endpoints with
  | none => ([], .error (.invalidEndpoint msg.endpoint))
  | some chr =>
    ([.read chr],
     match hw.device.readResult chr with
     | .ok data => .ok { device_index := 0, endpoint := msg.endpoint, data := data }
     | .error err => .error (.deviceSpecificError (.btleplugError err)))

/-- `BtlePlugHardware::subscribe` (btleplug_hardware.rs:384-405). -/
def BtlePlugHardware.subscribeValue (hw : BtlePlugHardware)
    (msg : HardwareSubscribeCmd) :
    List BleAction × Except ButtplugDeviceError Unit :=
  match alLookup msg.endpoint hw.endpoints with
  | none => ([], .error (.invalidEndpoint msg.endpoint))
  | some chr =>
    ([.subscribe chr],
     match hw.device.subscribeResult chr with
     | .ok _ => .ok ()
     | .error err => .error (.deviceSpecificError (.btleplugError err)))

/-- `BtlePlugHardware::unsubscribe` (btleplug_hardware.rs:407-428). -/
def BtlePlugHardware.unsubscribeValue (hw : BtlePlugHardware)
    (msg : HardwareUnsubscribeCmd) :
    List BleAction × Except ButtplugDeviceError Unit :=
  match alLookup msg.endpoint hw.endpoints with
  | none => ([], .error (.invalidEndpoint msg.endpoint))
  | some chr =>
    ([.unsubscribe chr],
     match hw.device.unsubscribeResult chr with
     | .ok _ => .ok ()
     | .error err => .error (.deviceSpecificError (.btleplugError err)))

/-! ## Hardware-event bridge task (`BtlePlugHardware::new`,
btleplug_hardware.rs:233-298)

The spawned task races the peripheral's notification stream against the
adapter's central-event stream.  One `select!` arm firing is one step; the
broadcast channel's subscriber count and the success of `send` at that
instant are the step's environment. -/

/-- `HardwareEvent`. -/
inductive HardwareEvent where
  | notification (address : String) (endpoint : Endpoint) (value : List Nat)
  | disconnected (address : String)
  deriving DecidableEq, Repr

/-- Fixed data of the bridge task: the UUID → endpoint map and this
peripheral's address. -/
structure BridgeCfg where
  uuidMap : List (Nat × Endpoint)
  address : String

/-- Mutable state of the bridge task: whether the unknown-UUID error was
already printed once. -/
structure BridgeState where
  error_notification : Bool
  deriving DecidableEq, Repr

/-- Per-step environment: the broadcast channel's `receiver_count()` at
this instant and whether a `send` at this instant succeeds. -/
structure BridgeEnv where
  receiverCount : Nat
  sendOk : Bool
  deriving DecidableEq, Repr

/-- One `select!` arm firing in the bridge task. -/
inductive BridgeInput where
  | notification (uuid : Nat) (value : List Nat)
  | adapterDeviceDisconnected (addr : String)
  | adapterOther
  deriving DecidableEq, Repr

/-- Result of one bridge-task step: the updated state, the event given to
`event_stream.send` (if any), and whether the task keeps looping. -/
structure BridgeOut where
  st : BridgeState
  sent : Option HardwareEvent
  running : Bool
  deriving DecidableEq, Repr

/-- One iteration of the bridge task loop.  A notification first resolves
its UUID (a miss logs once and continues); with zero subscribers the event
is dropped (`continue`); otherwise it is sent, and a failed send breaks.
A central `DeviceDisconnected` for this address sends `Disconnected` when
subscribers exist and always breaks; other central events are ignored. -/
def bridgeStep (cfg : BridgeCfg) (st : BridgeState) (env : BridgeEnv) :
    BridgeInput → BridgeOut
  | .notification uuid value =>
    match alLookup uuid cfg.uuidMap with
    | none => { st := { error_notification := true }, sent := none, running := true }
    | some endpoint =>
      if env.receiverCount = 0 then
        { st := st, sent := none, running := true }
      else
        { st := st
          sent := some (.notification cfg.address endpoint value)
          running := env.sendOk }
  | .adapterDeviceDisconnected addr =>
    if addr = cfg.address then
      { st := st
        sent := if env.receiverCount ≠ 0 then some (.disconnected cfg.address) else none
        running := false }
    else
      { st := st, sent := none, running := true }
  | .adapterOther => { st := st, sent := none, running := true }

/-! ## Lemmas about `DeviceList` handling (claim C4) -/

/-- Each entry produces exactly one `DeviceAdded` event, in list order. -/
theorem handleDeviceListEntries_events (l : List DeviceMessageInfo) :
    ∀ s : ClientState,
    (handleDeviceListEntries s l).2.map ButtplugClientEvent.addedInfo = l.map some := by
  induction l with
  | nil => intro s; rfl
  | cons d rest ih =>
    intro s
    simp only [handleDeviceListEntries, List.map_cons]
    rw [ih]
    rfl

/-- Entry handling only writes roster keys that occur in the list. -/
theorem handleDeviceListEntries_lookup_not_mem (l : List DeviceMessageInfo) :
    ∀ (s : ClientState) (k : Nat), k ∉ l.map DeviceMessageInfo.device_index →
    alLookup k (handleDeviceListEntries s l).1.devices = alLookup k s.devices := by
  induction l with
  | nil => intro s k _; rfl
  | cons d rest ih =>
    intro s k hk
    simp only [List.map_cons, List.mem_cons] at hk
    push_neg at hk
    simp only [handleDeviceListEntries]
    rw [ih _ k hk.2]
    exact alLookup_alInsert_of_ne k d.device_index d _ hk.1

/-- With distinct indices, each entry ends up in the roster under its own
index. -/
theorem handleDeviceListEntries_lookup_mem (l : List DeviceMessageInfo) :
    ∀ s : ClientState, (l.map DeviceMessageInfo.device_index).Nodup →
    ∀ d ∈ l, alLookup d.device_index (handleDeviceListEntries s l).1.devices = some d := by
  induction l with
  | nil => intro s _ d hd; cases hd
  | cons d0 rest ih =>
    intro s hnd d hd
    simp only [List.map_cons, List.nodup_cons] at hnd
    rcases List.mem_cons.mp hd with rfl | hmem
    · simp only [handleDeviceListEntries]
      rw [handleDeviceListEntries_lookup_not_mem rest _ d.device_index hnd.1]
      exact alLookup_alInsert_self d.device_index d _
    · exact ih _ hnd.2 d hmem

/-! ## Claim theorems -/

/-- Claim C1.  For every device-addressed command message whose index is
absent from the registry, `DeviceManager::parse_message` answers a
`DeviceError` reading exactly "No device with index N available"; for a
present index the message is handed to that device's `parse_message`; the
registry is unchanged in both cases. -/
theorem c1_device_command_dispatch (dm : DeviceManager) (m : DeviceCommandMessage) :
    (dm.parseMessage (.deviceCmd m)).1 = dm ∧
    (alLookup m.getDeviceIndex dm.devices = none →
      (dm.parseMessage (.deviceCmd m)).2 =
        .error (.deviceError
          ("No device with index " ++ toString m.getDeviceIndex ++ " available"))) ∧
    (∀ d, alLookup m.getDeviceIndex dm.devices = some d →
      (dm.parseMessage (.deviceCmd m)).2 = d.parse m) := by
  cases h : alLookup m.getDeviceIndex dm.devices with
  | none =>
    refine ⟨?_, fun _ => ?_, fun d hd => ?_⟩
    · simp [DeviceManager.parseMessage, DeviceManager.parseDeviceMessage, h]
    · simp [DeviceManager.parseMessage, DeviceManager.parseDeviceMessage, h]
    · cases hd
  | some d0 =>
    refine ⟨?_, fun hn => ?_, fun d hd => ?_⟩
    · simp [DeviceManager.parseMessage, DeviceManager.parseDeviceMessage, h]
    · cases hn
    · cases hd
      simp [DeviceManager.parseMessage, DeviceManager.parseDeviceMessage, h]

/-- A concrete connected device used by the witnesses. -/
def witDevice : ButtplugDevice :=
  { name := "Dev"
    message_attributes := "vibrate:1"
    parse := fun _ => .ok (.ok 1) }

/-- A concrete device manager with one device at index 0. -/
def witManager : DeviceManager :=
  { comm_managers := [{ mid := 0 }]
    devices := [(0, witDevice)] }

/-- Witness for C1: index 99 is absent and yields the exact error text;
index 0 is present and the message reaches the device. -/
theorem c1_device_command_dispatch_witness :
    alLookup (DeviceCommandMessage.vibrateCmd 99).getDeviceIndex witManager.devices = none ∧
    (witManager.parseMessage (.deviceCmd (.vibrateCmd 99))).2 =
      .error (.deviceError "No device with index 99 available") ∧
    alLookup (DeviceCommandMessage.vibrateCmd 0).getDeviceIndex witManager.devices
      = some witDevice ∧
    (witManager.parseMessage (.deviceCmd (.vibrateCmd 0))).2 =
      witDevice.parse (.vibrateCmd 0) :=
  ⟨rfl,
   (c1_device_command_dispatch witManager (.vibrateCmd 99)).2.1 rfl,
   rfl,
   (c1_device_command_dispatch witManager (.vibrateCmd 0)).2.2 witDevice rfl⟩

/-- Claim C2 (amended).  For every sequence of manager-loop events in which
at most `2^32` `DeviceFound` events occur, the device indices allocated by
a fresh manager are exactly `0, 1, 2, …` — strictly increasing from 0 and
never repeated — independently of identification outcomes (a failed
identification still consumes its index).  The bound is forced by the
`u32` counter, which wraps after `2^32` allocations. -/
theorem c2_indices_strictly_increasing (reg : List (Nat × ButtplugDevice))
    (events : List ManagerLoopEvent) (h : countFound events ≤ u32Mod) :
    ∃ k, (runLoop ⟨0, reg⟩ events).allocated = List.range k ∧
      (runLoop ⟨0, reg⟩ events).allocated.Nodup ∧
      List.Pairwise (fun a b => a < b) (runLoop ⟨0, reg⟩ events).allocated := by
  obtain ⟨k, hk, hall⟩ := runLoop_allocated_spec events ⟨0, reg⟩ (by simp [u32Mod])
  have hrange : (runLoop ⟨0, reg⟩ events).allocated = List.range k := by
    rw [hall]
    have hcong : ∀ i ∈ List.range k, (LoopState.counter ⟨0, reg⟩ + i) % u32Mod = id i := by
      intro i hi
      show (0 + i) % u32Mod = i
      rw [Nat.zero_add, Nat.mod_eq_of_lt (lt_of_lt_of_le (List.mem_range.mp hi)
        (le_trans hk h))]
    rw [List.map_congr_left hcong, List.map_id]
  exact ⟨k, hrange, by rw [hrange]; exact List.nodup_range k,
    by rw [hrange]; exact List.pairwise_lt_range k⟩

/-- Events for the C2 witness: a successful identification, a failed one,
then another success. -/
def c2events : List ManagerLoopEvent :=
  [ .commEvent (some (.deviceFound (.matched witDevice))),
    .commEvent (some (.deviceFound .unmatched)),
    .commEvent (some (.deviceFound (.matched witDevice))) ]

/-- Witness for C2: on three `DeviceFound` events (the middle one failing
identification) the allocated indices are `[0, 1, 2]` — the failed index 1
is consumed, not reused. -/
theorem c2_indices_strictly_increasing_witness :
    countFound c2events ≤ u32Mod ∧
    (∃ k, (runLoop ⟨0, []⟩ c2events).allocated = List.range k ∧
      (runLoop ⟨0, []⟩ c2events).allocated.Nodup ∧
      List.Pairwise (fun a b => a < b) (runLoop ⟨0, []⟩ c2events).allocated) ∧
    (runLoop ⟨0, []⟩ c2events).allocated = [0, 1, 2] :=
  ⟨by norm_num [c2events, countFound, u32Mod],
   c2_indices_strictly_increasing [] c2events
     (by norm_num [c2events, countFound, u32Mod]),
   rfl⟩

/-- Counterexample for C2 as stated: with `2^32 + 1` `DeviceFound` events
in one manager lifetime the `u32` index counter wraps, so the allocated
indices repeat (index 0 is allocated twice) — the claim's unconditional
"never assigned twice" fails. -/
theorem c2_index_reuse_counterexample :
    ¬ (runLoop ⟨0, []⟩ (List.replicate (u32Mod + 1)
        (ManagerLoopEvent.commEvent (some (.deviceFound .unmatched))))).allocated.Nodup := by
  intro hnd
  have hall := runLoop_replicate_found .unmatched (u32Mod + 1) ⟨0, []⟩ (by simp [u32Mod])
  rw [hall] at hnd
  have hlen : ((List.range (u32Mod + 1)).map
      (fun i => (LoopState.counter ⟨0, []⟩ + i) % u32Mod)).length = u32Mod + 1 := by
    simp
  have h0 : (0 : Nat) < ((List.range (u32Mod + 1)).map
      (fun i => (LoopState.counter ⟨0, []⟩ + i) % u32Mod)).length := by
    rw [hlen]; omega
  have h1 : u32Mod < ((List.range (u32Mod + 1)).map
      (fun i => (LoopState.counter ⟨0, []⟩ + i) % u32Mod)).length := by
    rw [hlen]; omega
  have heq : ((List.range (u32Mod + 1)).map
        (fun i => (LoopState.counter ⟨0, []⟩ + i) % u32Mod)).get ⟨0, h0⟩
      = ((List.range (u32Mod + 1)).map
        (fun i => (LoopState.counter ⟨0, []⟩ + i) % u32Mod)).get ⟨u32Mod, h1⟩ := by
    simp only [List.get_eq_getElem, List.getElem_map, List.getElem_range]
    show ((0 : Nat) + 0) % u32Mod = (0 + u32Mod) % u32Mod
    simp [Nat.mod_self]
  have hfin := hnd.get_inj_iff.mp heq
  have hval : (0 : Nat) = u32Mod := congrArg Fin.val hfin
  simp [u32Mod] at hval

/-- Claim C3.  When the ping-timeout signal fires, the manager loop issues
exactly one `StopDeviceCmd` to every device in the registry at that moment
(one batch entry per registry key, keys unique), per-device errors are
recorded but do not shrink the batch, and the loop terminates without
processing any event queued behind the timeout. -/
theorem c3_ping_timeout_stop_all (s : LoopState) (pre post : List ManagerLoopEvent)
    (h1 : ∀ e ∈ pre, breakFree e = true)
    (h2 : (s.registry.map Prod.fst).Nodup) :
    (runLoop s (pre ++ ManagerLoopEvent.pingTimeout :: post)).stops.map (fun t => t.1)
        = (execState s pre).registry.map Prod.fst ∧
    ((runLoop s (pre ++ ManagerLoopEvent.pingTimeout :: post)).stops.map
        (fun t => t.1)).Nodup ∧
    (∀ t ∈ (runLoop s (pre ++ ManagerLoopEvent.pingTimeout :: post)).stops,
        t.2.1 = DeviceCommandMessage.stopDeviceCmd 1) ∧
    (runLoop s (pre ++ ManagerLoopEvent.pingTimeout :: post)).leftover = post := by
  obtain ⟨hstops, hleft⟩ := runLoop_ping_timeout pre s post h1
  have hmap : (runLoop s (pre ++ ManagerLoopEvent.pingTimeout :: post)).stops.map
      (fun t => t.1) = (execState s pre).registry.map Prod.fst := by
    rw [hstops, List.map_map]
    rfl
  refine ⟨hmap, ?_, ?_, hleft⟩
  · rw [hmap]
    exact execState_keys_nodup pre s h2
  · intro t ht
    rw [hstops] at ht
    obtain ⟨p, _, rfl⟩ := List.mem_map.mp ht
    rfl

/-- Break-free prefix for the C3 witness: one failed identification, one
device connected at index 7. -/
def c3pre : List ManagerLoopEvent :=
  [ .commEvent (some (.deviceFound .unmatched)),
    .commEvent (some (.deviceConnected 7 witDevice)) ]

/-- Events queued behind the ping timeout in the C3 witness. -/
def c3post : List ManagerLoopEvent :=
  [ .commEvent (some .scanningFinished) ]

/-- Witness for C3: with device 7 in the registry at timeout, the stop
batch is exactly `[7]` and the queued `ScanningFinished` is never
processed. -/
theorem c3_ping_timeout_stop_all_witness :
    (∀ e ∈ c3pre, breakFree e = true) ∧
    (([] : List (Nat × ButtplugDevice)).map Prod.fst).Nodup ∧
    ((runLoop ⟨0, []⟩ (c3pre ++ ManagerLoopEvent.pingTimeout :: c3post)).stops.map
        (fun t => t.1) = (execState ⟨0, []⟩ c3pre).registry.map Prod.fst ∧
      ((runLoop ⟨0, []⟩ (c3pre ++ ManagerLoopEvent.pingTimeout :: c3post)).stops.map
        (fun t => t.1)).Nodup ∧
      (∀ t ∈ (runLoop ⟨0, []⟩ (c3pre ++ ManagerLoopEvent.pingTimeout :: c3post)).stops,
        t.2.1 = DeviceCommandMessage.stopDeviceCmd 1) ∧
      (runLoop ⟨0, []⟩ (c3pre ++ ManagerLoopEvent.pingTimeout :: c3post)).leftover
        = c3post) ∧
    (runLoop ⟨0, []⟩ (c3pre ++ ManagerLoopEvent.pingTimeout :: c3post)).stops.map
      (fun t => t.1) = [7] :=
  ⟨by intro e he
      simp only [c3pre, List.mem_cons, List.not_mem_nil, or_false] at he
      rcases he with rfl | rfl
      · rfl
      · rfl,
   List.nodup_nil,
   c3_ping_timeout_stop_all ⟨0, []⟩ c3pre c3post
     (by intro e he
         simp only [c3pre, List.mem_cons, List.not_mem_nil, or_false] at he
         rcases he with rfl | rfl
         · rfl
         · rfl)
     List.nodup_nil,
   rfl⟩

/-- Claim C4.  A `DeviceList` handled by the client loop — through the
connector or through `HandleDeviceList` — produces exactly one
`DeviceAdded` client event per entry, in list order, and (for distinct
indices) each entry's `DeviceMessageInfo` ends up in the roster under its
device index.  Both entry points produce the same state and events. -/
theorem c4_device_list_roundtrip (s : ClientState) (l : List DeviceMessageInfo)
    (h : (l.map DeviceMessageInfo.device_index).Nodup) :
    ∃ s2 evs,
      parseConnectorMessage s (.deviceList l) = some (s2, evs) ∧
      parseClientMessage s (.handleDeviceList l) = (s2, evs, true) ∧
      evs.map ButtplugClientEvent.addedInfo = l.map some ∧
      ∀ d ∈ l, alLookup d.device_index s2.devices = some d := by
  refine ⟨(handleDeviceListEntries s l).1, (handleDeviceListEntries s l).2,
    rfl, rfl, handleDeviceListEntries_events l s,
    handleDeviceListEntries_lookup_mem l s h⟩

/-- Two-entry device list for the C4 witness. -/
def c4list : List DeviceMessageInfo :=
  [ { device_index := 0, device_name := "Dev", device_messages := "vibrate:1" },
    { device_index := 1, device_name := "Dev2", device_messages := "rotate:1" } ]

/-- Witness for C4 at a concrete two-entry list on an empty client state. -/
theorem c4_device_list_roundtrip_witness :
    (c4list.map DeviceMessageInfo.device_index).Nodup ∧
    ∃ s2 evs,
      parseConnectorMessage ⟨[], [], 0⟩ (.deviceList c4list) = some (s2, evs) ∧
      parseClientMessage ⟨[], [], 0⟩ (.handleDeviceList c4list) = (s2, evs, true) ∧
      evs.map ButtplugClientEvent.addedInfo = c4list.map some ∧
      ∀ d ∈ c4list, alLookup d.device_index s2.devices = some d :=
  ⟨by decide, c4_device_list_roundtrip ⟨[], [], 0⟩ c4list (by decide)⟩

/-- Claim C5.  `StartScanning`/`StopScanning` fail with `UnknownError`
exactly when no communication managers are registered; with at least one
manager they fan out to every manager and answer `Ok` carrying the request
id. -/
theorem c5_scanning_fanout (dm : DeviceManager) (id : Nat) :
    (dm.comm_managers = [] →
      dm.startScanning id = ([], .error (.unknownError
        "Cannot start scanning. Server has no device communication managers to scan with.")) ∧
      dm.stopScanning id = ([], .error (.unknownError
        "Cannot start scanning. Server has no device communication managers to scan with."))) ∧
    (dm.comm_managers ≠ [] →
      dm.startScanning id = (dm.comm_managers.map (fun m => m.mid), .ok (.ok id)) ∧
      dm.stopScanning id = (dm.comm_managers.map (fun m => m.mid), .ok (.ok id))) := by
  constructor
  · intro h
    constructor
    · simp [DeviceManager.startScanning, h]
    · simp [DeviceManager.stopScanning, h]
  · intro h
    have he : dm.comm_managers.isEmpty = false := by
      cases hc : dm.comm_managers with
      | nil => exact absurd hc h
      | cons a rest => rfl
    constructor
    · simp [DeviceManager.startScanning, he]
    · simp [DeviceManager.stopScanning, he]

/-- Witness for C5: the empty manager errors on both calls; `witManager`
(one communication manager) fans out and answers `Ok(5)`. -/
theorem c5_scanning_fanout_witness :
    (DeviceManager.startScanning { comm_managers := [], devices := [] } 5
        = ([], .error (.unknownError
          "Cannot start scanning. Server has no device communication managers to scan with."))) ∧
    witManager.comm_managers ≠ [] ∧
    witManager.startScanning 5 = ([0], .ok (.ok 5)) ∧
    witManager.stopScanning 5 = ([0], .ok (.ok 5)) :=
  ⟨((c5_scanning_fanout { comm_managers := [], devices := [] } 5).1 rfl).1,
   by simp [witManager],
   ((c5_scanning_fanout witManager 5).2 (by simp [witManager])).1,
   ((c5_scanning_fanout witManager 5).2 (by simp [witManager])).2⟩

/-- Claim C6.  `StopAllDevices` sends `StopDeviceCmd(1)` to every registry
device — one batch entry per registry key, keys unique — and answers
`Ok(msg_id)` regardless of the individual device results. -/
theorem c6_stop_all_devices (dm : DeviceManager) (id : Nat)
    (h : (dm.devices.map Prod.fst).Nodup) :
    (dm.stopAllDevices id).2 = .ok (.ok id) ∧
    (dm.stopAllDevices id).1.map (fun t => t.1) = dm.devices.map Prod.fst ∧
    ((dm.stopAllDevices id).1.map (fun t => t.1)).Nodup ∧
    ∀ t ∈ (dm.stopAllDevices id).1, t.2.1 = DeviceCommandMessage.stopDeviceCmd 1 := by
  have hmap : (dm.stopAllDevices id).1.map (fun t => t.1) = dm.devices.map Prod.fst := by
    show ((dm.devices.map _).map _) = _
    rw [List.map_map]
    rfl
  refine ⟨rfl, hmap, by rw [hmap]; exact h, ?_⟩
  intro t ht
  obtain ⟨p, _, rfl⟩ := List.mem_map.mp ht
  rfl

/-- A device whose stop command errors, for the C6 witness. -/
def witFailingDevice : ButtplugDevice :=
  { name := "Bad"
    message_attributes := "vibrate:1"
    parse := fun _ => .error (.deviceError "device did not respond") }

/-- Manager with one healthy device and one failing device. -/
def c6manager : DeviceManager :=
  { comm_managers := []
    devices := [(0, witDevice), (1, witFailingDevice)] }

/-- Witness for C6: device 1's stop errors, yet the batch covers both
devices and still answers `Ok(9)`. -/
theorem c6_stop_all_devices_witness :
    (c6manager.devices.map Prod.fst).Nodup ∧
    ((c6manager.stopAllDevices 9).2 = .ok (.ok 9) ∧
      (c6manager.stopAllDevices 9).1.map (fun t => t.1)
        = c6manager.devices.map Prod.fst ∧
      ((c6manager.stopAllDevices 9).1.map (fun t => t.1)).Nodup ∧
      ∀ t ∈ (c6manager.stopAllDevices 9).1,
        t.2.1 = DeviceCommandMessage.stopDeviceCmd 1) ∧
    (c6manager.stopAllDevices 9).1.map (fun t => t.2.2)
      = [.ok (.ok 1), .error (.deviceError "device did not respond")] :=
  ⟨by decide,
   c6_stop_all_devices c6manager 9 (by decide),
   rfl⟩

/-- Claim C7.  On the BLE driver, an endpoint absent from the bound
endpoint map makes `write_value`, `read_value`, `subscribe` and
`unsubscribe` return `InvalidEndpoint(endpoint)` with no peripheral I/O;
a bound endpoint makes each operation act on the mapped characteristic. -/
theorem c7_invalid_endpoint (hw : BtlePlugHardware) (ep : Endpoint)
    (data : List Nat) (wr : Bool) (len tmo : Nat) :
    (alLookup ep hw.endpoints = none →
      hw.writeValue { endpoint := ep, data := data, write_with_response := wr }
        = ([], .error (.invalidEndpoint ep)) ∧
      hw.readValue { endpoint := ep, length := len, timeout_ms := tmo }
        = ([], .error (.invalidEndpoint ep)) ∧
      hw.subscribeValue { endpoint := ep } = ([], .error (.invalidEndpoint ep)) ∧
      hw.unsubscribeValue { endpoint := ep } = ([], .error (.invalidEndpoint ep))) ∧
    (∀ chr, alLookup ep hw.endpoints = some chr →
      (hw.writeValue { endpoint := ep, data := data, write_with_response := wr }).1
        = [.write chr data (if wr then .withResponse else .withoutResponse)] ∧
      (hw.readValue { endpoint := ep, length := len, timeout_ms := tmo }).1
        = [.read chr] ∧
      (hw.subscribeValue { endpoint := ep }).1 = [.subscribe chr] ∧
      (hw.unsubscribeValue { endpoint := ep }).1 = [.unsubscribe chr]) := by
  constructor
  · intro h
    refine ⟨?_, ?_, ?_, ?_⟩
    · simp [BtlePlugHardware.writeValue, h]
    · simp [BtlePlugHardware.readValue, h]
    · simp [BtlePlugHardware.subscribeValue, h]
    · simp [BtlePlugHardware.unsubscribeValue, h]
  · intro chr h
    refine ⟨?_, ?_, ?_, ?_⟩
    · simp [BtlePlugHardware.writeValue, h]
    · simp [BtlePlugHardware.readValue, h]
    · simp [BtlePlugHardware.subscribeValue, h]
    · simp [BtlePlugHardware.unsubscribeValue, h]

/-- A peripheral whose operations all succeed, for the C7 witness. -/
def witPeripheral : BlePeripheral :=
  { writeResult := fun _ _ _ => .ok ()
    readResult := fun _ => .ok [1, 2]
    subscribeResult := fun _ => .ok ()
    unsubscribeResult := fun _ => .ok () }

/-- Driver with only the `tx` endpoint bound, for the C7 witness. -/
def witHardware : BtlePlugHardware :=
  { device := witPeripheral
    endpoints := [(Endpoint.tx, { uuid := 11 })] }

/-- Witness for C7: `rx` is unbound (error, no I/O); `tx` is bound (one
write action on characteristic 11). -/
theorem c7_invalid_endpoint_witness :
    alLookup Endpoint.rx witHardware.endpoints = none ∧
    witHardware.writeValue
        { endpoint := Endpoint.rx, data := [5], write_with_response := true }
      = ([], .error (.invalidEndpoint Endpoint.rx)) ∧
    alLookup Endpoint.tx witHardware.endpoints = some { uuid := 11 } ∧
    (witHardware.writeValue
        { endpoint := Endpoint.tx, data := [5], write_with_response := true }).1
      = [.write { uuid := 11 } [5] .withResponse] :=
  ⟨rfl,
   ((c7_invalid_endpoint witHardware Endpoint.rx [5] true 0 0).1 rfl).1,
   rfl,
   ((c7_invalid_endpoint witHardware Endpoint.tx [5] true 0 0).2 { uuid := 11 } rfl).1⟩

/-- Claim C8.  A notification arriving while the broadcast channel has
zero subscribers is dropped and the bridge task keeps running; an event is
handed to `send` only when at least one subscriber exists. -/
theorem c8_drop_without_subscribers (cfg : BridgeCfg) (st : BridgeState)
    (env : BridgeEnv) (uuid : Nat) (value : List Nat) :
    (env.receiverCount = 0 →
      (bridgeStep cfg st env (.notification uuid value)).sent = none ∧
      (bridgeStep cfg st env (.notification uuid value)).running = true) ∧
    ((bridgeStep cfg st env (.notification uuid value)).sent.isSome →
      1 ≤ env.receiverCount) := by
  cases h : alLookup uuid cfg.uuidMap with
  | none =>
    constructor
    · intro _
      exact ⟨by simp [bridgeStep, h], by simp [bridgeStep, h]⟩
    · intro hs
      simp [bridgeStep, h] at hs
  | some ep =>
    constructor
    · intro hz
      exact ⟨by simp [bridgeStep, h, hz], by simp [bridgeStep, h, hz]⟩
    · intro hs
      by_cases hz : env.receiverCount = 0
      · simp [bridgeStep, h, hz] at hs
      · omega

/-- Bridge configuration for the C8 witness: UUID 11 maps to `tx`. -/
def c8cfg : BridgeCfg :=
  { uuidMap := [(11, Endpoint.tx)], address := "aa:bb" }

/-- Witness for C8: with zero subscribers a known-UUID notification is
dropped and the task keeps running. -/
theorem c8_drop_without_subscribers_witness :
    (({ receiverCount := 0, sendOk := true } : BridgeEnv).receiverCount = 0) ∧
    (bridgeStep c8cfg { error_notification := false }
        { receiverCount := 0, sendOk := true } (.notification 11 [3])).sent = none ∧
    (bridgeStep c8cfg { error_notification := false }
        { receiverCount := 0, sendOk := true } (.notification 11 [3])).running = true :=
  ⟨rfl,
   ((c8_drop_without_subscribers c8cfg { error_notification := false }
       { receiverCount := 0, sendOk := true } 11 [3]).1 rfl).1,
   ((c8_drop_without_subscribers c8cfg { error_notification := false }
       { receiverCount := 0, sendOk := true } 11 [3]).1 rfl).2⟩

/-- Claim C9.  `parse_connector_message` on `DeviceRemoved` panics
(`unwrap` of `None`) when the index is absent from the roster; when the
index is present, the roster entry and the whole event-sender list for
that index are removed and a single `DeviceRemoved` client event carrying
the removed info is emitted. -/
theorem c9_device_removed_unwrap (s : ClientState) (idx : Nat)
    (hd : (s.devices.map Prod.fst).Nodup)
    (hs : (s.device_event_senders.map Prod.fst).Nodup) :
    (alLookup idx s.devices = none →
      parseConnectorMessage s (.deviceRemoved idx) = none) ∧
    (∀ info, alLookup idx s.devices = some info →
      parseConnectorMessage s (.deviceRemoved idx) =
        some ({ devices := alRemove idx s.devices
                device_event_senders := alRemove idx s.device_event_senders
                nextChan := s.nextChan },
          [ButtplugClientEvent.deviceRemoved info]) ∧
      alLookup idx (alRemove idx s.devices) = none ∧
      alLookup idx (alRemove idx s.device_event_senders) = none) := by
  constructor
  · intro h
    simp [parseConnectorMessage, h]
  · intro info h
    refine ⟨by simp [parseConnectorMessage, h], ?_, ?_⟩
    · exact alLookup_alRemove_self idx s.devices hd
    · exact alLookup_alRemove_self idx s.device_event_senders hs

/-- Client state for the C9 and C10 witnesses: device 3 in the roster with
one event sender (channel 0), next fresh channel 1. -/
def c9state : ClientState :=
  { devices := [(3, { device_index := 3, device_name := "Dev",
                      device_messages := "vibrate:1" })]
    device_event_senders := [(3, [0])]
    nextChan := 1 }

/-- Witness for C9: removing absent index 8 panics (`none`); removing
present index 3 clears both maps and emits one `DeviceRemoved`. -/
theorem c9_device_removed_unwrap_witness :
    alLookup 8 c9state.devices = none ∧
    parseConnectorMessage c9state (.deviceRemoved 8) = none ∧
    (parseConnectorMessage c9state (.deviceRemoved 3) =
        some ({ devices := [], device_event_senders := [], nextChan := 1 },
          [ButtplugClientEvent.deviceRemoved
            { device_index := 3, device_name := "Dev",
              device_messages := "vibrate:1" }]) ∧
      alLookup 3 (alRemove 3 c9state.devices) = none ∧
      alLookup 3 (alRemove 3 c9state.device_event_senders) = none) :=
  ⟨rfl,
   (c9_device_removed_unwrap c9state 8 (by decide) (by decide)).1 rfl,
   (c9_device_removed_unwrap c9state 3 (by decide) (by decide)).2
     { device_index := 3, device_name := "Dev", device_messages := "vibrate:1" } rfl⟩

/-- Pushing a sender appends it to the (possibly fresh) vector under the
key; the earlier senders for that key are kept. -/
theorem alLookup_sendersPush_self (k chan : Nat) (m : List (Nat × List Nat)) :
    alLookup k (sendersPush k chan m) = some ((alLookup k m).getD [] ++ [chan]) := by
  induction m with
  | nil => simp [sendersPush, alLookup]
  | cons p rest ih =>
    by_cases h : k = p.1
    · simp [sendersPush, h, alLookup]
    · simp [sendersPush, h, alLookup, ih]

/-- Claim C10.  A `DeviceAdded` (or a one-entry `DeviceList`) for an index
already in the roster is not deduplicated: the roster entry is
overwritten, a new event sender is appended after the existing ones, and
another `DeviceAdded` client event is emitted outward. -/
theorem c10_duplicate_device_added (s : ClientState) (info old : DeviceMessageInfo)
    (_h : alLookup info.device_index s.devices = some old) :
    ∃ s2,
      parseConnectorMessage s (.deviceAdded info) =
        some (s2, [ButtplugClientEvent.deviceAdded { info := info, chan := s.nextChan }]) ∧
      parseConnectorMessage s (.deviceList [info]) =
        some (s2, [ButtplugClientEvent.deviceAdded { info := info, chan := s.nextChan }]) ∧
      alLookup info.device_index s2.devices = some info ∧
      alLookup info.device_index s2.device_event_senders =
        some ((alLookup info.device_index s.device_event_senders).getD []
          ++ [s.nextChan]) ∧
      s2.nextChan = s.nextChan + 1 := by
  refine ⟨{ devices := alInsert info.device_index info s.devices
            device_event_senders :=
              sendersPush info.device_index s.nextChan s.device_event_senders
            nextChan := s.nextChan + 1 },
    rfl, rfl, alLookup_alInsert_self _ _ _, alLookup_sendersPush_self _ _ _, rfl⟩

/-- Witness for C10: re-adding device 3 to `c9state` overwrites the roster
entry, keeps sender 0 and appends sender 1, and emits another
`DeviceAdded`. -/
theorem c10_duplicate_device_added_witness :
    alLookup 3 c9state.devices =
      some { device_index := 3, device_name := "Dev", device_messages := "vibrate:1" } ∧
    ∃ s2,
      parseConnectorMessage c9state
          (.deviceAdded { device_index := 3, device_name := "DevNew",
                          device_messages := "rotate:1" }) =
        some (s2, [ButtplugClientEvent.deviceAdded
          { info := { device_index := 3, device_name := "DevNew",
                      device_messages := "rotate:1" }, chan := 1 }]) ∧
      parseConnectorMessage c9state
          (.deviceList [{ device_index := 3, device_name := "DevNew",
                          device_messages := "rotate:1" }]) =
        some (s2, [ButtplugClientEvent.deviceAdded
          { info := { device_index := 3, device_name := "DevNew",
                      device_messages := "rotate:1" }, chan := 1 }]) ∧
      alLookup 3 s2.devices =
        some { device_index := 3, device_name := "DevNew",
               device_messages := "rotate:1" } ∧
      alLookup 3 s2.device_event_senders =
        some ((alLookup 3 c9state.device_event_senders).getD [] ++ [1]) ∧
      s2.nextChan = 2 :=
  ⟨rfl,
   c10_duplicate_device_added c9state
     { device_index := 3, device_name := "DevNew", device_messages := "rotate:1" }
     { device_index := 3, device_name := "Dev", device_messages := "vibrate:1" }
     rfl⟩
